import Mathlib

/-!
Shallow embedding of the dora-bot core (src/app.py): the quiet-window
predicate, the event store over the two sqlite relations (`walks`,
`chats`), the per-group alert decision (`maybe_alert_chat`), the periodic
sweep (`overdue_check`), the statistics aggregation (`chat_stats`) and the
outcome-vote handler (`handle_poop_vote`).

Timestamps are modelled as rational numbers of seconds of absolute (UTC)
time.  A local wall-clock instant is modelled by its time-of-day fields
(hour, minute, second, microsecond); `is_quiet` in the source compares
full datetimes whose date component is shared (it is copied by
`datetime.replace`), so the comparison reduces to the time-of-day.
-/

/-- Time-of-day, mirroring the fields of Python `datetime.time` /
the time-of-day part of `datetime.datetime`. -/
structure TimeOfDay where
  hour : Nat
  minute : Nat
  second : Nat
  micro : Nat
deriving DecidableEq, Repr

/-- Microseconds since local midnight; Python compares `time`/`datetime`
values field-lexicographically, which for in-range fields coincides with
this linearisation. -/
def TimeOfDay.toMicro (t : TimeOfDay) : Nat :=
  ((t.hour * 60 + t.minute) * 60 + t.second) * 1000000 + t.micro

/-- `parse_hhmm` (src/app.py:29-31): builds a `time(hour=h, minute=m)`,
whose second and microsecond fields are zero. -/
def parse_hhmm (h m : Nat) : TimeOfDay := ⟨h, m, 0, 0⟩

/-- `is_quiet` (src/app.py:83-93).  `start`/`end` are `local_dt` with the
hour and minute replaced by the configured boundary and second/microsecond
zeroed; `local_dt` itself is compared unmodified.  The date component is
shared by all three values, so datetime order is time-of-day order. -/
def is_quiet (QUIET_START QUIET_END : TimeOfDay) (local_dt : TimeOfDay) : Bool :=
  let start : TimeOfDay := ⟨QUIET_START.hour, QUIET_START.minute, 0, 0⟩
  let stop : TimeOfDay := ⟨QUIET_END.hour, QUIET_END.minute, 0, 0⟩
  if QUIET_START.toMicro ≤ QUIET_END.toMicro then
    decide (start.toMicro ≤ local_dt.toMicro ∧ local_dt.toMicro ≤ stop.toMicro)
  else
    decide (local_dt.toMicro ≥ start.toMicro ∨ local_dt.toMicro ≤ stop.toMicro)

/-- Mirror of the SPEC's wording of the quiet predicate (§4.3): seconds and
sub-seconds of the boundaries AND of the evaluated instant are normalised
to zero, i.e. everything is compared at minute granularity.  Kept separate
from `is_quiet` (which embeds the source) for the refinement comparison. -/
def is_quiet_spec (QUIET_START QUIET_END : TimeOfDay) (local_dt : TimeOfDay) : Bool :=
  let s := QUIET_START.hour * 60 + QUIET_START.minute
  let e := QUIET_END.hour * 60 + QUIET_END.minute
  let tm := local_dt.hour * 60 + local_dt.minute
  if s ≤ e then decide (s ≤ tm ∧ tm ≤ e)
  else decide (tm ≥ s ∨ tm ≤ e)

/-- One row of the `walks` table (src/app.py:48-56). -/
structure Walk where
  id : Nat
  chat_id : Int
  user_id : Int
  user_name : String
  ts : ℚ
  poop : Option String
deriving DecidableEq, Repr

instance : Inhabited Walk := ⟨⟨0, 0, 0, "", 0, none⟩⟩

/-- One row of the `chats` table (src/app.py:57-62). -/
structure ChatRow where
  chat_id : Int
  title : Option String
  last_alert : Option ℚ
deriving DecidableEq, Repr

/-- The database state: the two relations.  `next_id` models the
AUTOINCREMENT primary key of `walks`. -/
structure Store where
  walks : List Walk
  chats : List ChatRow
  next_id : Nat
deriving DecidableEq, Repr

/-- Configuration read at startup (src/app.py:23-35). -/
structure Config where
  MAX_HOURS : ℚ
  QUIET_START : TimeOfDay
  QUIET_END : TimeOfDay

/-- The default configuration: `MAX_HOURS_WITHOUT_WALK=6`,
`QUIET_START=23:00`, `QUIET_END=07:30`. -/
def defaultConfig : Config := ⟨6, parse_hhmm 23 0, parse_hhmm 7 30⟩

/-- `last_walk_utc` (src/app.py:72-80): `SELECT ts_utc FROM walks WHERE
chat_id=? ORDER BY ts_utc DESC LIMIT 1` — the maximal timestamp among the
group's walks (ISO strings of a fixed format sort like the instants), or
none. -/
def last_walk_utc (s : Store) (chat_id : Int) : Option ℚ :=
  (s.walks.filter (fun w => w.chat_id == chat_id)).foldl
    (fun acc w =>
      match acc with
      | none => some w.ts
      | some t => if t ≤ w.ts then some w.ts else acc)
    none

/-- The read of `chats.last_alert_utc` (src/app.py:235-239): the row may be
absent, or present with a NULL field; both give `None`. -/
def getLastAlert (s : Store) (chat_id : Int) : Option ℚ :=
  match s.chats.find? (fun c => c.chat_id == chat_id) with
  | none => none
  | some c => c.last_alert

/-- `UPDATE chats SET last_alert_utc=? WHERE chat_id=?`
(src/app.py:250-252). -/
def setLastAlert (s : Store) (chat_id : Int) (t : ℚ) : Store :=
  { s with
    chats := s.chats.map (fun c =>
      if c.chat_id == chat_id then { c with last_alert := some t } else c) }

/-- The decision produced by an alert evaluation: either nothing, or a
message reporting the elapsed hours since the last walk (rendered by the
source with one decimal place, `f"... {hours:.1f}h ..."`). -/
inductive AlertAction where
  | NoAction : AlertAction
  | Emit : ℚ → AlertAction
deriving DecidableEq, Repr

/-- The decision cascade of `maybe_alert_chat` (src/app.py:227-247),
side effects separated out (see `maybe_alert_run`): (1) no last walk;
(2) elapsed hours below `MAX_HOURS`; (3) local now inside the quiet
window; (4) a previous alert less than 6 hours old; else (5) emit.
`local_now` is `now_utc().astimezone(TZ)`, passed in by the caller since
the time-zone conversion is external to the embedded arithmetic. -/
def maybe_alert_chat (cfg : Config) (s : Store) (now : ℚ) (local_now : TimeOfDay)
    (chat_id : Int) : AlertAction :=
  match last_walk_utc s chat_id with
  | none => .NoAction
  | some last =>
    let hours : ℚ := (now - last) / 3600
    if hours < cfg.MAX_HOURS then .NoAction
    else
      let last_alert := getLastAlert s chat_id
      if is_quiet cfg.QUIET_START cfg.QUIET_END local_now then .NoAction
      else if (match last_alert with
               | some la => decide (now - la < 6 * 3600)
               | none => false) then .NoAction
      else .Emit hours

/-- `maybe_alert_chat` with its side effects (src/app.py:247-252): when the
decision is `Emit`, the message is sent first and the `last_alert_utc`
update runs only afterwards; a delivery failure (`delivery_ok = false`)
raises out of the function before the update, leaving the store unchanged.
Returns the resulting store and whether the call completed without
raising. -/
def maybe_alert_run (cfg : Config) (s : Store) (now : ℚ) (local_now : TimeOfDay)
    (chat_id : Int) (delivery_ok : Bool) : Store × Bool :=
  match maybe_alert_chat cfg s now local_now chat_id with
  | .NoAction => (s, true)
  | .Emit _ => if delivery_ok then (setLastAlert s chat_id now, true) else (s, false)

example : maybe_alert_chat defaultConfig
    ⟨[⟨1, 1, 1, "u", 0, none⟩], [⟨1, none, none⟩], 2⟩ 25200 ⟨14, 0, 0, 0⟩ 1
    = .Emit 7 := by
  simp [maybe_alert_chat, last_walk_utc, getLastAlert, is_quiet, defaultConfig,
    parse_hhmm, TimeOfDay.toMicro]
  norm_num

example : maybe_alert_chat defaultConfig
    ⟨[⟨1, 1, 1, "u", 0, none⟩], [⟨1, none, none⟩], 2⟩ 25200 ⟨23, 30, 0, 0⟩ 1
    = .NoAction := by
  simp [maybe_alert_chat, last_walk_utc, getLastAlert, is_quiet, defaultConfig,
    parse_hhmm, TimeOfDay.toMicro]

example : maybe_alert_chat defaultConfig
    ⟨[⟨1, 1, 1, "u", 0, none⟩], [⟨1, none, some 21600⟩], 2⟩ 25200 ⟨14, 0, 0, 0⟩ 1
    = .NoAction := by
  simp [maybe_alert_chat, last_walk_utc, getLastAlert, is_quiet, defaultConfig,
    parse_hhmm, TimeOfDay.toMicro]
  norm_num

example : is_quiet (parse_hhmm 23 0) (parse_hhmm 7 30) ⟨7, 30, 30, 0⟩ = false := by decide

example : is_quiet_spec (parse_hhmm 23 0) (parse_hhmm 7 30) ⟨7, 30, 30, 0⟩ = true := by decide

/-! ## Scheduler state and the sweep -/

/-- The application-level state: the database plus the in-process
`application.chat_data` registry.  An entry for a chat is created only
when a handler accesses `context.chat_data` — in this program only the
`start` handler does (src/app.py:272-279). -/
structure AppState where
  store : Store
  chat_data_keys : List Int
deriving DecidableEq, Repr

/-- The `start` command handler (src/app.py:272-279): registers the chat in
`chat_data` and `INSERT OR IGNORE`s a `chats` row. -/
def start_handler (app : AppState) (chat_id : Int) (title : Option String) : AppState :=
  { store :=
      { app.store with
        chats :=
          if app.store.chats.any (fun c => c.chat_id == chat_id) then app.store.chats
          else app.store.chats ++ [⟨chat_id, title, none⟩] }
    chat_data_keys :=
      if chat_id ∈ app.chat_data_keys then app.chat_data_keys
      else app.chat_data_keys ++ [chat_id] }

/-- All groups the store has ever seen: every group with a `chats` row or
at least one `walks` row.  This is the SPEC's `listKnownGroups` (§4.1);
the source has no such query — the sweep reads `chat_data` instead. -/
def knownGroups (s : Store) : List Int :=
  (s.chats.map (fun c => c.chat_id) ++ s.walks.map (fun w => w.chat_id)).dedup

/-- One tick of `overdue_check` (src/app.py:221-224) with the per-group
decisions recorded: it iterates `context.application.chat_data.keys()` and
evaluates each. -/
def overdue_check (cfg : Config) (app : AppState) (now : ℚ) (local_now : TimeOfDay) :
    List (Int × AlertAction) :=
  app.chat_data_keys.map (fun g => (g, maybe_alert_chat cfg app.store now local_now g))

/-- One tick of `overdue_check` with side effects and failures: the store
is threaded through the per-group evaluations in order, and the loop body
has no exception handler, so the first evaluation that raises (here: a
delivery failure) aborts the remaining iterations.  Returns the final
store, the list of groups that were actually evaluated this tick, and
whether the tick ran to completion. -/
def overdue_check_run (cfg : Config) (deliver : Int → Bool) (now : ℚ)
    (local_now : TimeOfDay) : Store → List Int → Store × List Int × Bool
  | s, [] => (s, [], true)
  | s, g :: gs =>
    let r := maybe_alert_run cfg s now local_now g (deliver g)
    if r.2 then
      let rest := overdue_check_run cfg deliver now local_now r.1 gs
      (rest.1, g :: rest.2.1, rest.2.2)
    else (r.1, [g], false)

/-! ## Statistics (`chat_stats`, src/app.py:156-173) -/

/-- One row of the `SELECT ts_utc, poop FROM walks WHERE chat_id=? ORDER
BY ts_utc ASC` result: a timestamp and the optional outcome. -/
structure StatsRow where
  ts : ℚ
  poop : Option String
deriving DecidableEq, Repr

/-- The key used by the tally: `r["poop"] or "unknown"` — Python `or`
replaces a falsy value (NULL or the empty string) by `"unknown"`. -/
def poopKey (p : Option String) : String :=
  match p with
  | none => "unknown"
  | some v => if v = "" then "unknown" else v

/-- One step of `poop_counts[k] = poop_counts.get(k, 0) + 1` on an
insertion-ordered association list (a Python dict). -/
def bump : List (String × Nat) → String → List (String × Nat)
  | [], k => [(k, 1)]
  | (k', v) :: rest, k =>
    if k' = k then (k', v + 1) :: rest else (k', v) :: bump rest k

/-- `poop_counts` accumulated over the rows in order. -/
def poop_counts (rows : List StatsRow) : List (String × Nat) :=
  rows.foldl (fun m r => bump m (poopKey r.poop)) []

/-- The result tuple of `chat_stats`. -/
structure Stats where
  count : Nat
  first : Option ℚ
  last : Option ℚ
  avg_gap : ℚ
  tally : List (String × Nat)
deriving DecidableEq, Repr

/-- `chat_stats` (src/app.py:156-173) on the ordered row sequence the SQL
query returns.  `gaps` mirrors the comprehension
`[(times[i] - times[i-1]).total_seconds()/3600.0 for i in range(1, len(times))]`
and the average is `sum(gaps)/len(gaps) if gaps else 0.0`. -/
def chat_stats (rows : List StatsRow) : Stats :=
  if rows.isEmpty then ⟨0, none, none, 0, []⟩
  else
    let times := rows.map (fun r => r.ts)
    let gaps := (List.range (times.length - 1)).map
      (fun i => (times.getD (i + 1) 0 - times.getD i 0) / 3600)
    let avg_gap := if gaps.isEmpty then 0 else gaps.sum / (gaps.length : ℚ)
    ⟨rows.length, some (times.getD 0 0), some (times.getD (times.length - 1) 0),
      avg_gap, poop_counts rows⟩

/-- The SPEC's description of `average_gap_hours` (§4.2): the mean of the
consecutive pairwise time differences in hours, `0.0` with fewer than two
events.  Kept separate from `chat_stats` for the comparison. -/
def spec_avg_gap (times : List ℚ) : ℚ :=
  let diffs := List.zipWith (fun a b => (a - b) / 3600) times.tail times
  if times.length < 2 then 0 else diffs.sum / (diffs.length : ℚ)

/-- The sum of a tally's values. -/
def sumVals (m : List (String × Nat)) : Nat := (m.map (fun p => p.2)).sum

/-- Dictionary lookup with default 0, `m.get(k, 0)`. -/
def lookupD (m : List (String × Nat)) (k : String) : Nat :=
  ((m.find? (fun p => p.1 == k)).map (fun p => p.2)).getD 0

example : chat_stats [] = ⟨0, none, none, 0, []⟩ := by decide

example : chat_stats [⟨0, none⟩, ⟨7200, some "Normal"⟩, ⟨18000, none⟩] =
    ⟨3, some 0, some 18000, 5/2, [("unknown", 2), ("Normal", 1)]⟩ := by
  simp [chat_stats, poop_counts, poopKey, bump, List.range_succ]
  norm_num

/-! ## Outcome votes (`handle_poop_vote`, src/app.py:127-151) -/

/-- The callback-token dictionary (src/app.py:130-135); `mapping.get`
yields `None` for any unrecognised token. -/
def mapping (d : String) : Option String :=
  if d = "poop_ok" then some "Normal"
  else if d = "poop_soft" then some "Blanda"
  else if d = "poop_diarrhea" then some "Diarrea"
  else if d = "poop_none" then some "none"
  else none

/-- The id selected by `SELECT id FROM walks WHERE chat_id=? AND user_id=?
ORDER BY ts_utc DESC LIMIT 1`: the id of the row with the maximal
timestamp among the pair's rows (ties resolved towards the later
insertion), or none when the pair has no rows. -/
def latestWalkId (walks : List Walk) (chat_id user_id : Int) : Option Nat :=
  ((walks.filter (fun w => w.chat_id == chat_id && w.user_id == user_id)).foldl
    (fun acc w =>
      match acc with
      | none => some (w.ts, w.id)
      | some (t, _) => if t ≤ w.ts then some (w.ts, w.id) else acc)
    none).map (fun p => p.2)

/-- The row-level effect of `UPDATE walks SET poop=? WHERE id = ?`: the
row with the selected id gets the new `poop` value, every other row is
returned unchanged. -/
def voteUpdate (i : Nat) (val : String) (w : Walk) : Walk :=
  if w.id == i then { w with poop := some val } else w

/-- `handle_poop_vote` (src/app.py:127-151): an unrecognised token returns
before touching the database; otherwise the single `UPDATE` rewrites
`poop` on the row whose id the subquery selected (`WHERE id = NULL`
matches nothing when the pair has no rows). -/
def handle_poop_vote (s : Store) (chat_id user_id : Int) (token : String) : Store :=
  match mapping token with
  | none => s
  | some val =>
    match latestWalkId s.walks chat_id user_id with
    | none => s
    | some i => { s with walks := s.walks.map (voteUpdate i val) }

/-- `log_walk`'s database writes (src/app.py:98-107): `INSERT OR IGNORE`
into `chats`, then insert a walk with `poop` NULL. -/
def log_walk (s : Store) (chat_id user_id : Int) (user_name : String)
    (title : Option String) (now : ℚ) : Store :=
  { walks := s.walks ++ [⟨s.next_id, chat_id, user_id, user_name, now, none⟩]
    chats :=
      if s.chats.any (fun c => c.chat_id == chat_id) then s.chats
      else s.chats ++ [⟨chat_id, title, none⟩]
    next_id := s.next_id + 1 }

/-- An operation of the core that touches the event log: reporting a walk
or casting an outcome vote. -/
inductive Op where
  | report : Int → Int → String → Option String → ℚ → Op
  | vote : Int → Int → String → Op

/-- Interpreting an operation on the database. -/
def applyOp (s : Store) : Op → Store
  | .report chat_id user_id user_name title now => log_walk s chat_id user_id user_name title now
  | .vote chat_id user_id token => handle_poop_vote s chat_id user_id token

example :
    handle_poop_vote ⟨[⟨1, 5, 7, "u", 0, none⟩, ⟨2, 5, 7, "u", 100, none⟩], [], 3⟩ 5 7 "poop_ok"
    = ⟨[⟨1, 5, 7, "u", 0, none⟩, ⟨2, 5, 7, "u", 100, some "Normal"⟩], [], 3⟩ := by
  simp [handle_poop_vote, mapping, latestWalkId, voteUpdate]

/-! ## Theorems -/

/-- C1.  The claim says seconds and sub-seconds are normalised to zero on
BOTH the window boundaries and the evaluated instant.  The source
normalises only the boundaries: at the wrapping window 23:00–07:30 the
instant 07:30:30 is not quiet under `is_quiet`, while the claim's
minute-granularity reading (`is_quiet_spec`) makes it quiet. -/
theorem C1_counterexample :
    is_quiet (parse_hhmm 23 0) (parse_hhmm 7 30) ⟨7, 30, 30, 0⟩ = false ∧
    is_quiet_spec (parse_hhmm 23 0) (parse_hhmm 7 30) ⟨7, 30, 30, 0⟩ = true := by
  constructor <;> decide

/-- C1 (amended).  `is_quiet` normalises seconds and sub-seconds of the
window boundaries only; the evaluated instant is compared at full
precision: for boundaries given at hour/minute granularity it is quiet iff
`start ≤ t ∧ t ≤ end` (non-wrapping) resp. `t ≥ start ∨ t ≤ end`
(wrapping), with `start`/`end` the zero-second instants of the configured
minutes and `t` the full-precision instant.  An instant in the start
boundary's minute is quiet whatever its seconds; an instant equals the end
boundary only when its seconds and sub-seconds are zero. -/
theorem C1_quiet_window (sh sm eh em : Nat) (t : TimeOfDay) :
    is_quiet (parse_hhmm sh sm) (parse_hhmm eh em) t = true ↔
      (if sh * 60 + sm ≤ eh * 60 + em then
        (sh * 60 + sm) * 60 * 1000000 ≤ t.toMicro ∧
          t.toMicro ≤ (eh * 60 + em) * 60 * 1000000
      else
        t.toMicro ≥ (sh * 60 + sm) * 60 * 1000000 ∨
          t.toMicro ≤ (eh * 60 + em) * 60 * 1000000) := by
  simp only [is_quiet, parse_hhmm, TimeOfDay.toMicro]
  split_ifs with h1 h2 h3 <;> simp only [decide_eq_true_eq] <;> omega

/-- C3.  The claim says every group the store has ever seen (event or
registration) is evaluated on each sweep tick.  The sweep iterates the
in-process `chat_data` registry, which only the `start` handler populates:
a store that knows group 5 through a walk and a `chats` row is not swept
when `chat_data` is empty. -/
theorem C3_counterexample :
    (5 : Int) ∈ knownGroups ⟨[⟨1, 5, 7, "u", 0, none⟩], [⟨5, none, none⟩], 2⟩ ∧
    overdue_check defaultConfig
      ⟨⟨[⟨1, 5, 7, "u", 0, none⟩], [⟨5, none, none⟩], 2⟩, []⟩ 25200 ⟨14, 0, 0, 0⟩ = [] := by
  constructor
  · decide
  · rfl

/-- C3 (amended).  Each sweep tick evaluates exactly the groups in the
scheduler's registration list (`chat_data`, populated only by the `start`
command) — every registered group is evaluated once per tick, but a group
known to the store only through its events is skipped until someone runs
`start` in it. -/
theorem C3_sweep_targets (cfg : Config) (app : AppState) (now : ℚ) (local_now : TimeOfDay) :
    (overdue_check cfg app now local_now).map (fun p => p.1) = app.chat_data_keys ∧
    ∀ chat_id title, chat_id ∈ (start_handler app chat_id title).chat_data_keys := by
  constructor
  · simp only [overdue_check, List.map_map]
    exact List.map_id _
  · intro chat_id title
    by_cases h : chat_id ∈ app.chat_data_keys <;> simp [start_handler, h]

/-- C10.  A callback token other than the four recognised ones makes
`mapping.get` return `None`, and the handler returns before touching the
database: the store is unchanged and no error is raised. -/
theorem C10_unknown_token (s : Store) (chat_id user_id : Int) (token : String)
    (h1 : token ≠ "poop_ok") (h2 : token ≠ "poop_soft")
    (h3 : token ≠ "poop_diarrhea") (h4 : token ≠ "poop_none") :
    handle_poop_vote s chat_id user_id token = s := by
  simp [handle_poop_vote, mapping, h1, h2, h3, h4]

/-- C10 witness: the token `poop_xyz` (matched by the `^poop_` handler
pattern but absent from the dictionary) leaves a nonempty store
unchanged. -/
theorem C10_witness :
    handle_poop_vote ⟨[⟨1, 5, 7, "u", 0, some "Normal"⟩], [], 2⟩ 5 7 "poop_xyz"
      = ⟨[⟨1, 5, 7, "u", 0, some "Normal"⟩], [], 2⟩ :=
  C10_unknown_token ⟨[⟨1, 5, 7, "u", 0, some "Normal"⟩], [], 2⟩ 5 7 "poop_xyz"
    (by decide) (by decide) (by decide) (by decide)

/-- C2.  The alert decision: `Emit` is returned exactly when all five
conditions of the cascade pass — a latest event exists, the elapsed hours
`(now - latest)/3600` reach `MAX_HOURS`, local now is outside the quiet
window, and any previous alert is at least 6 hours old — and the emitted
message reports those elapsed hours (rendered with one decimal place);
every failing condition short-circuits to `NoAction`.  In particular, with
`MAX_HOURS = 6`, the last event 7 hours ago and quiet window 23:00–07:30:
at local 14:00 with no prior alert the decision is `Emit 7`; at local
23:30 it is `NoAction`; at local 14:00 with an alert one hour ago it is
`NoAction`. -/
theorem C2_decision_cascade :
    (∀ (cfg : Config) (s : Store) (now : ℚ) (local_now : TimeOfDay) (chat_id : Int) (h : ℚ),
      maybe_alert_chat cfg s now local_now chat_id = .Emit h ↔
        ∃ last, last_walk_utc s chat_id = some last ∧
          h = (now - last) / 3600 ∧
          cfg.MAX_HOURS ≤ h ∧
          is_quiet cfg.QUIET_START cfg.QUIET_END local_now = false ∧
          ∀ la, getLastAlert s chat_id = some la → 6 * 3600 ≤ now - la) ∧
    maybe_alert_chat defaultConfig
      ⟨[⟨1, 1, 1, "u", 0, none⟩], [⟨1, none, none⟩], 2⟩ 25200 ⟨14, 0, 0, 0⟩ 1 = .Emit 7 ∧
    maybe_alert_chat defaultConfig
      ⟨[⟨1, 1, 1, "u", 0, none⟩], [⟨1, none, none⟩], 2⟩ 25200 ⟨23, 30, 0, 0⟩ 1 = .NoAction ∧
    maybe_alert_chat defaultConfig
      ⟨[⟨1, 1, 1, "u", 0, none⟩], [⟨1, none, some 21600⟩], 2⟩ 25200 ⟨14, 0, 0, 0⟩ 1
      = .NoAction := by
  refine ⟨?_, ?_, ?_, ?_⟩
  · intro cfg s now local_now chat_id h
    cases hlw : last_walk_utc s chat_id with
    | none => simp [maybe_alert_chat, hlw]
    | some last =>
      simp only [maybe_alert_chat, hlw]
      by_cases hmax : (now - last) / 3600 < cfg.MAX_HOURS
      · rw [if_pos hmax]
        constructor
        · intro hcontra; exact absurd hcontra (by simp)
        · rintro ⟨l, hl, rfl, hge, -, -⟩
          obtain rfl : last = l := by injection hl
          exact absurd hge (not_le.mpr hmax)
      · rw [if_neg hmax]
        by_cases hq : is_quiet cfg.QUIET_START cfg.QUIET_END local_now = true
        · rw [if_pos hq]
          constructor
          · intro hcontra; exact absurd hcontra (by simp)
          · rintro ⟨l, hl, rfl, -, hqf, -⟩
            rw [hq] at hqf; exact absurd hqf (by simp)
        · rw [if_neg hq]
          by_cases hth : (match getLastAlert s chat_id with
              | some la => decide (now - la < 6 * 3600)
              | none => false) = true
          · rw [if_pos hth]
            constructor
            · intro hcontra; exact absurd hcontra (by simp)
            · rintro ⟨l, hl, rfl, -, -, hla⟩
              cases hga : getLastAlert s chat_id with
              | none => rw [hga] at hth; exact absurd hth (by simp)
              | some la =>
                rw [hga] at hth
                simp only [decide_eq_true_eq] at hth
                exact absurd (hla la hga) (not_le.mpr hth)
          · rw [if_neg hth]
            constructor
            · intro hE
              obtain rfl : h = (now - last) / 3600 := by
                cases hE; rfl
              refine ⟨last, rfl, rfl, not_lt.mp hmax, Bool.not_eq_true _ ▸ hq, ?_⟩
              · intro la hga
                rw [hga] at hth
                simp only [decide_eq_true_eq] at hth
                exact not_lt.mp hth
            · rintro ⟨l, hl, rfl, -, -, -⟩
              obtain rfl : last = l := by injection hl
              rfl
  · simp [maybe_alert_chat, last_walk_utc, getLastAlert, is_quiet, defaultConfig,
      parse_hhmm, TimeOfDay.toMicro]
    norm_num
  · simp [maybe_alert_chat, last_walk_utc, getLastAlert, is_quiet, defaultConfig,
      parse_hhmm, TimeOfDay.toMicro]
  · simp [maybe_alert_chat, last_walk_utc, getLastAlert, is_quiet, defaultConfig,
      parse_hhmm, TimeOfDay.toMicro]
    norm_num

/-- C5.  Monotonic throttle: with `last_alert_at = T`, every evaluation at
`now ∈ [T, T + 6h)` decides `NoAction` and leaves the store untouched
(in particular `last_alert_utc` is not rewritten); at `now` with
`now - T ≥ 6h` the decision is `Emit` whenever the remaining conditions
(a latest event at least `MAX_HOURS` ago, local now outside the quiet
window) hold — so two emitted reminders are never less than 6 hours
apart. -/
theorem C5_throttle (cfg : Config) (s : Store) (now : ℚ) (local_now : TimeOfDay)
    (chat_id : Int) (T : ℚ) (hla : getLastAlert s chat_id = some T) :
    (T ≤ now → now < T + 6 * 3600 →
      maybe_alert_chat cfg s now local_now chat_id = .NoAction ∧
      ∀ d, maybe_alert_run cfg s now local_now chat_id d = (s, true)) ∧
    (6 * 3600 ≤ now - T →
      ∀ last, last_walk_utc s chat_id = some last →
        ¬ (now - last) / 3600 < cfg.MAX_HOURS →
        is_quiet cfg.QUIET_START cfg.QUIET_END local_now = false →
        maybe_alert_chat cfg s now local_now chat_id = .Emit ((now - last) / 3600)) := by
  constructor
  · intro hT1 hT2
    have hno : maybe_alert_chat cfg s now local_now chat_id = .NoAction := by
      cases hlw : last_walk_utc s chat_id with
      | none => simp [maybe_alert_chat, hlw]
      | some last =>
        simp only [maybe_alert_chat, hlw, hla]
        split_ifs with h1 h2 h3
        · rfl
        · rfl
        · rfl
        · exact absurd (by simp only [decide_eq_true_eq]; linarith : (decide
            (now - T < 6 * 3600)) = true) h3
    refine ⟨hno, fun d => ?_⟩
    unfold maybe_alert_run
    rw [hno]
  · intro h6 last hlw hmax hq
    simp only [maybe_alert_chat, hlw, hla]
    rw [if_neg hmax, if_neg (by rw [hq]; simp : ¬ is_quiet cfg.QUIET_START
      cfg.QUIET_END local_now = true)]
    rw [if_neg (by simp only [decide_eq_true_eq]; intro hc; linarith :
      ¬ (decide (now - T < 6 * 3600)) = true)]

/-- C5 witness: last alert at `T = 21600`, evaluated at `now = 25200`
(one hour later, inside the throttle window): the decision is `NoAction`
and the store is unchanged even though the last walk is 7 hours old and
local 14:00 is outside the quiet window. -/
theorem C5_throttle_witness :
    maybe_alert_chat defaultConfig
      ⟨[⟨1, 1, 1, "u", 0, none⟩], [⟨1, none, some 21600⟩], 2⟩ 25200 ⟨14, 0, 0, 0⟩ 1
      = .NoAction ∧
    maybe_alert_run defaultConfig
      ⟨[⟨1, 1, 1, "u", 0, none⟩], [⟨1, none, some 21600⟩], 2⟩ 25200 ⟨14, 0, 0, 0⟩ 1 true
      = (⟨[⟨1, 1, 1, "u", 0, none⟩], [⟨1, none, some 21600⟩], 2⟩, true) := by
  have hmain := (C5_throttle defaultConfig
    ⟨[⟨1, 1, 1, "u", 0, none⟩], [⟨1, none, some 21600⟩], 2⟩ 25200 ⟨14, 0, 0, 0⟩ 1 21600
    rfl).1 (by norm_num) (by norm_num)
  exact ⟨hmain.1, hmain.2 true⟩

/-- C6.  When the decision is `Emit` the message is delivered first and
only then is `last_alert_utc` set to `now`; a delivery failure raises
before the update, leaving the store (and in particular the group's alert
bookkeeping) unchanged, so the next tick retries. -/
theorem C6_delivery_failure (cfg : Config) (s : Store) (now : ℚ)
    (local_now : TimeOfDay) (chat_id : Int) (h : ℚ)
    (hemit : maybe_alert_chat cfg s now local_now chat_id = .Emit h) :
    maybe_alert_run cfg s now local_now chat_id false = (s, false) ∧
    maybe_alert_run cfg s now local_now chat_id true
      = (setLastAlert s chat_id now, true) := by
  unfold maybe_alert_run
  rw [hemit]
  exact ⟨rfl, rfl⟩

/-- C6 witness: the overdue group of the C2 scenario (`Emit 7`): with
delivery failing the store is unchanged; with delivery succeeding the
`last_alert_utc` field is set to `now = 25200`. -/
theorem C6_delivery_failure_witness :
    maybe_alert_run defaultConfig
      ⟨[⟨1, 1, 1, "u", 0, none⟩], [⟨1, none, none⟩], 2⟩ 25200 ⟨14, 0, 0, 0⟩ 1 false
      = (⟨[⟨1, 1, 1, "u", 0, none⟩], [⟨1, none, none⟩], 2⟩, false) ∧
    maybe_alert_run defaultConfig
      ⟨[⟨1, 1, 1, "u", 0, none⟩], [⟨1, none, none⟩], 2⟩ 25200 ⟨14, 0, 0, 0⟩ 1 true
      = (⟨[⟨1, 1, 1, "u", 0, none⟩], [⟨1, none, some 25200⟩], 2⟩, true) := by
  have hmain := C6_delivery_failure defaultConfig
    ⟨[⟨1, 1, 1, "u", 0, none⟩], [⟨1, none, none⟩], 2⟩ 25200 ⟨14, 0, 0, 0⟩ 1 7
    (by simp [maybe_alert_chat, last_walk_utc, getLastAlert, is_quiet, defaultConfig,
        parse_hhmm, TimeOfDay.toMicro]
        norm_num)
  refine ⟨hmain.1, ?_⟩
  rw [hmain.2]
  simp [setLastAlert]

/-- C4.  The claim says a failing group never prevents the evaluation of
the remaining groups of the same tick.  The loop body of `overdue_check`
has no exception handler: with groups `[1, 2]` both overdue and delivery
failing for group 1, the tick ends after group 1 — group 2 is not
evaluated. -/
theorem C4_counterexample :
    (overdue_check_run defaultConfig (fun g => g != 1) 25200 ⟨14, 0, 0, 0⟩
      ⟨[⟨1, 1, 1, "u", 0, none⟩, ⟨2, 2, 2, "v", 0, none⟩],
       [⟨1, none, none⟩, ⟨2, none, none⟩], 3⟩ [1, 2]).2.1 = [1] ∧
    (overdue_check_run defaultConfig (fun g => g != 1) 25200 ⟨14, 0, 0, 0⟩
      ⟨[⟨1, 1, 1, "u", 0, none⟩, ⟨2, 2, 2, "v", 0, none⟩],
       [⟨1, none, none⟩, ⟨2, none, none⟩], 3⟩ [1, 2]).2.2 = false := by
  have h1 : maybe_alert_chat defaultConfig
      ⟨[⟨1, 1, 1, "u", 0, none⟩, ⟨2, 2, 2, "v", 0, none⟩],
       [⟨1, none, none⟩, ⟨2, none, none⟩], 3⟩ 25200 ⟨14, 0, 0, 0⟩ 1 = .Emit 7 := by
    simp [maybe_alert_chat, last_walk_utc, getLastAlert, is_quiet, defaultConfig,
      parse_hhmm, TimeOfDay.toMicro]
    norm_num
  constructor <;>
    simp [overdue_check_run, maybe_alert_run, h1]

/-- C4 (amended).  The groups evaluated in one sweep tick always form a
prefix of the registered list, evaluated in order; when every per-group
evaluation completes, that prefix is the whole list — but the first
failure ends the tick, so the groups after it wait for the next tick
(shown concretely by the counterexample). -/
theorem C4_sweep_stops_at_failure (cfg : Config) (deliver : Int → Bool) (now : ℚ)
    (local_now : TimeOfDay) :
    ∀ (gs : List Int) (s : Store),
      (∃ t, (overdue_check_run cfg deliver now local_now s gs).2.1 ++ t = gs) ∧
      ((overdue_check_run cfg deliver now local_now s gs).2.2 = true →
        (overdue_check_run cfg deliver now local_now s gs).2.1 = gs) := by
  intro gs
  induction gs with
  | nil => exact fun s => ⟨⟨[], rfl⟩, fun _ => rfl⟩
  | cons g gs ih =>
    intro s
    simp only [overdue_check_run]
    by_cases hr : (maybe_alert_run cfg s now local_now g (deliver g)).2
    · rw [if_pos hr]
      obtain ⟨⟨t, ht⟩, hcomp⟩ :=
        ih (maybe_alert_run cfg s now local_now g (deliver g)).1
      refine ⟨⟨t, by simpa using ht⟩, fun hfin => ?_⟩
      simp only [List.cons.injEq, true_and]
      exact hcomp hfin
    · rw [if_neg hr]
      exact ⟨⟨gs, rfl⟩, fun hfin => absurd hfin (by simp)⟩

/-- C4 witness: with every delivery succeeding and no stored events, both
registered groups of a two-group tick are evaluated. -/
theorem C4_sweep_stops_at_failure_witness :
    (overdue_check_run defaultConfig (fun _ => true) 0 ⟨12, 0, 0, 0⟩ ⟨[], [], 1⟩
      [1, 2]).2.1 = [1, 2] :=
  (C4_sweep_stops_at_failure defaultConfig (fun _ => true) 0 ⟨12, 0, 0, 0⟩
    [1, 2] ⟨[], [], 1⟩).2 rfl

lemma sumVals_bump (m : List (String × Nat)) (k : String) :
    sumVals (bump m k) = sumVals m + 1 := by
  induction m with
  | nil => simp [sumVals, bump]
  | cons p rest ih =>
    obtain ⟨k', v⟩ := p
    by_cases h : k' = k
    · simp [sumVals, bump, h]
      omega
    · simp only [bump, if_neg h, sumVals, List.map_cons, List.sum_cons] at *
      omega

lemma lookupD_bump_self (m : List (String × Nat)) (k : String) :
    lookupD (bump m k) k = lookupD m k + 1 := by
  induction m with
  | nil => simp [lookupD, bump]
  | cons p rest ih =>
    obtain ⟨k', v⟩ := p
    by_cases h : k' = k
    · simp [lookupD, bump, h, List.find?]
    · simp only [bump, if_neg h, lookupD, List.find?,
        beq_eq_false_iff_ne.mpr h, ne_eq] at *
      exact ih

lemma lookupD_bump_ne (m : List (String × Nat)) (k k' : String) (h : k ≠ k') :
    lookupD (bump m k) k' = lookupD m k' := by
  induction m with
  | nil => simp [lookupD, bump, beq_eq_false_iff_ne.mpr h]
  | cons p rest ih =>
    obtain ⟨k0, v⟩ := p
    by_cases h0 : k0 = k
    · subst h0
      simp [lookupD, bump, List.find?, beq_eq_false_iff_ne.mpr h]
    · by_cases h1 : k0 = k'
      · subst h1
        simp [lookupD, bump, if_neg h0, List.find?]
      · simp only [bump, if_neg h0, lookupD, List.find?,
          beq_eq_false_iff_ne.mpr h1] at *
        exact ih

lemma sumVals_foldl_bump (rows : List StatsRow) :
    ∀ m, sumVals (rows.foldl (fun m r => bump m (poopKey r.poop)) m)
      = sumVals m + rows.length := by
  induction rows with
  | nil => simp
  | cons r rest ih =>
    intro m
    simp only [List.foldl_cons, List.length_cons]
    rw [ih (bump m (poopKey r.poop)), sumVals_bump]
    omega

lemma lookupD_foldl_bump (rows : List StatsRow) :
    ∀ (m : List (String × Nat)) (k : String),
      lookupD (rows.foldl (fun m r => bump m (poopKey r.poop)) m) k
        = lookupD m k + (rows.filter (fun r => poopKey r.poop == k)).length := by
  induction rows with
  | nil => simp
  | cons r rest ih =>
    intro m k
    simp only [List.foldl_cons]
    by_cases h : poopKey r.poop = k
    · rw [ih, h, lookupD_bump_self]
      simp only [List.filter_cons, h]
      simp
      omega
    · rw [ih, lookupD_bump_ne _ _ _ h]
      simp only [List.filter_cons, beq_eq_false_iff_ne.mpr h]
      simp

lemma gaps_eq_zipWith : ∀ (a : ℚ) (rest : List ℚ),
    (List.range ((a :: rest).length - 1)).map
      (fun i => ((a :: rest).getD (i + 1) 0 - (a :: rest).getD i 0) / 3600)
    = List.zipWith (fun x y => (x - y) / 3600) rest (a :: rest) := by
  intro a rest
  induction rest generalizing a with
  | nil => simp
  | cons b r ih =>
    have hlen : (a :: b :: r).length - 1 = r.length + 1 := by simp
    rw [hlen, List.range_succ_eq_map, List.map_cons, List.map_map]
    simp only [List.zipWith_cons_cons]
    congr 1
    rw [← ih b]
    simp only [List.length_cons, Nat.add_sub_cancel]
    rfl

lemma chat_stats_avg (rows : List StatsRow) :
    (chat_stats rows).avg_gap = spec_avg_gap (rows.map (fun r => r.ts)) := by
  cases rows with
  | nil => simp [chat_stats, spec_avg_gap]
  | cons r rest =>
    have hmap : (r :: rest).map (fun x => x.ts) = r.ts :: rest.map (fun x => x.ts) := rfl
    simp only [chat_stats, List.isEmpty_cons, Bool.false_eq_true, if_false]
    rw [hmap, gaps_eq_zipWith r.ts (rest.map (fun x => x.ts))]
    simp only [spec_avg_gap, List.tail_cons]
    cases rest with
    | nil => simp
    | cons b r2 =>
      simp [List.zipWith_cons_cons]
      rw [if_neg (by omega)]

lemma chat_stats_tally (rows : List StatsRow) :
    (chat_stats rows).tally = poop_counts rows := by
  cases rows <;> simp [chat_stats, poop_counts]

/-- C7.  `chat_stats` on an ordered (possibly empty) row sequence returns:
a count equal to the sequence length; an average gap equal to the mean of
the consecutive pairwise time differences in hours and `0` with fewer
than two events (hence `0` with a count of `0`); and a tally whose entry
at each category counts exactly the rows mapped to it — rows with an
unset outcome fall under the synthetic category `"unknown"` — so the
tally's values sum to the count; the empty sequence gives
`(0, none, none, 0, [])`. -/
theorem C7_compute_stats (rows : List StatsRow) :
    (chat_stats rows).count = rows.length ∧
    (chat_stats rows).avg_gap = spec_avg_gap (rows.map (fun r => r.ts)) ∧
    (∀ k, lookupD (chat_stats rows).tally k
        = (rows.filter (fun r => poopKey r.poop == k)).length) ∧
    lookupD (chat_stats rows).tally "unknown"
        = (rows.filter (fun r => poopKey r.poop == "unknown")).length ∧
    sumVals (chat_stats rows).tally = rows.length ∧
    chat_stats [] = ⟨0, none, none, 0, []⟩ := by
  have hlook : ∀ k, lookupD (chat_stats rows).tally k
      = (rows.filter (fun r => poopKey r.poop == k)).length := by
    intro k
    rw [chat_stats_tally]
    unfold poop_counts
    rw [lookupD_foldl_bump]
    simp [lookupD]
  refine ⟨?_, chat_stats_avg rows, hlook, hlook "unknown", ?_, rfl⟩
  · cases rows <;> simp [chat_stats]
  · rw [chat_stats_tally]
    unfold poop_counts
    rw [sumVals_foldl_bump]
    simp [sumVals]

/-- C8.  `handle_poop_vote` modifies at most the single most recent walk
of the `(chat, user)` pair: the walk list keeps its length, every position
keeps its id, chat, user, name and timestamp, every position whose id is
not the one the subquery selected is completely unchanged, at most one
position changes at all (ids being unique), and when the pair has no walk
(or the token is unrecognised) the whole store is untouched rather than
an error. -/
theorem C8_attach_outcome_frame (s : Store) (chat_id user_id : Int) (token : String)
    (hids : (s.walks.map (fun w => w.id)).Nodup) :
    ((mapping token = none ∨ latestWalkId s.walks chat_id user_id = none) →
      handle_poop_vote s chat_id user_id token = s) ∧
    (handle_poop_vote s chat_id user_id token).walks.length = s.walks.length ∧
    (∀ j, j < s.walks.length →
      ((handle_poop_vote s chat_id user_id token).walks.getD j default).id
          = (s.walks.getD j default).id ∧
      ((handle_poop_vote s chat_id user_id token).walks.getD j default).chat_id
          = (s.walks.getD j default).chat_id ∧
      ((handle_poop_vote s chat_id user_id token).walks.getD j default).user_id
          = (s.walks.getD j default).user_id ∧
      ((handle_poop_vote s chat_id user_id token).walks.getD j default).user_name
          = (s.walks.getD j default).user_name ∧
      ((handle_poop_vote s chat_id user_id token).walks.getD j default).ts
          = (s.walks.getD j default).ts ∧
      (some (s.walks.getD j default).id ≠ latestWalkId s.walks chat_id user_id →
        (handle_poop_vote s chat_id user_id token).walks.getD j default
          = s.walks.getD j default)) ∧
    (∀ j k, j < s.walks.length → k < s.walks.length →
      (handle_poop_vote s chat_id user_id token).walks.getD j default
          ≠ s.walks.getD j default →
      (handle_poop_vote s chat_id user_id token).walks.getD k default
          ≠ s.walks.getD k default →
      j = k) := by
  cases hm : mapping token with
  | none =>
    have hres : handle_poop_vote s chat_id user_id token = s := by
      simp [handle_poop_vote, hm]
    rw [hres]
    exact ⟨fun _ => rfl, rfl, fun j hj => ⟨rfl, rfl, rfl, rfl, rfl, fun _ => rfl⟩,
      fun j k _ _ hcj _ => absurd rfl hcj⟩
  | some val =>
    cases hl : latestWalkId s.walks chat_id user_id with
    | none =>
      have hres : handle_poop_vote s chat_id user_id token = s := by
        simp [handle_poop_vote, hm, hl]
      rw [hres]
      exact ⟨fun _ => rfl, rfl, fun j hj => ⟨rfl, rfl, rfl, rfl, rfl, fun _ => rfl⟩,
        fun j k _ _ hcj _ => absurd rfl hcj⟩
    | some i =>
      have hres : (handle_poop_vote s chat_id user_id token).walks
          = s.walks.map (voteUpdate i val) := by
        simp [handle_poop_vote, hm, hl]
      have hgd : ∀ j, j < s.walks.length →
          (handle_poop_vote s chat_id user_id token).walks.getD j default
            = voteUpdate i val (s.walks.getD j default) := by
        intro j hj
        have hj2 : j < (s.walks.map (voteUpdate i val)).length := by
          rw [List.length_map]; exact hj
        rw [hres, List.getD_eq_getElem _ _ hj2, List.getElem_map,
          List.getD_eq_getElem _ _ hj]
      have hchanged : ∀ j, j < s.walks.length →
          (handle_poop_vote s chat_id user_id token).walks.getD j default
            ≠ s.walks.getD j default → (s.walks.getD j default).id = i := by
        intro j hj hne
        rw [hgd j hj] at hne
        by_cases hid : (s.walks.getD j default).id == i
        · exact eq_of_beq hid
        · rw [voteUpdate, if_neg (by simp_all)] at hne
          exact absurd rfl hne
      refine ⟨?_, ?_, ?_, ?_⟩
      · rintro (hc | hc) <;> simp_all
      · rw [hres, List.length_map]
      · intro j hj
        rw [hgd j hj]
        unfold voteUpdate
        by_cases hid : (s.walks.getD j default).id == i
        · rw [if_pos hid]
          exact ⟨rfl, rfl, rfl, rfl, rfl,
            fun hne => absurd (by rw [eq_of_beq hid]) hne⟩
        · rw [if_neg hid]
          exact ⟨rfl, rfl, rfl, rfl, rfl, fun _ => rfl⟩
      · intro j k hj hk hcj hck
        have hj' : (s.walks.getD j default).id = i := hchanged j hj hcj
        have hk' : (s.walks.getD k default).id = i := hchanged k hk hck
        have hinj := List.nodup_iff_injective_getElem.mp hids
        have hlen : (s.walks.map (fun w => w.id)).length = s.walks.length :=
          List.length_map _ _
        have hjm : j < (s.walks.map (fun w => w.id)).length := by rw [hlen]; exact hj
        have hkm : k < (s.walks.map (fun w => w.id)).length := by rw [hlen]; exact hk
        have : (⟨j, hjm⟩ : Fin (s.walks.map (fun w => w.id)).length) = ⟨k, hkm⟩ := by
          apply hinj
          show (s.walks.map (fun w => w.id))[j] = (s.walks.map (fun w => w.id))[k]
          rw [List.getElem_map, List.getElem_map,
            ← List.getD_eq_getElem s.walks default hj,
            ← List.getD_eq_getElem s.walks default hk, hj', hk']
        exact congrArg Fin.val this

/-- C8 witness: a reporter with two historical walks (ids 1 and 2): the
vote keeps the list length and leaves the older walk (position 0)
untouched. -/
theorem C8_attach_outcome_frame_witness :
    (handle_poop_vote ⟨[⟨1, 5, 7, "u", 0, none⟩, ⟨2, 5, 7, "u", 100, none⟩], [], 3⟩
        5 7 "poop_ok").walks.length = 2 ∧
    (handle_poop_vote ⟨[⟨1, 5, 7, "u", 0, none⟩, ⟨2, 5, 7, "u", 100, none⟩], [], 3⟩
        5 7 "poop_ok").walks.getD 0 default = ⟨1, 5, 7, "u", 0, none⟩ := by
  have h := C8_attach_outcome_frame
    ⟨[⟨1, 5, 7, "u", 0, none⟩, ⟨2, 5, 7, "u", 100, none⟩], [], 3⟩ 5 7 "poop_ok"
    (by decide)
  exact ⟨h.2.1, (h.2.2.1 0 (by decide)).2.2.2.2.2 (by decide)⟩

/-- C9.  The claim says the attachment of `outcome` is one-time.  It is
not: a second vote by the same reporter in the same group rewrites the
same (still most recent) event — the outcome set to `Normal` by
`poop_ok` is changed to `Blanda` by a following `poop_soft`. -/
theorem C9_counterexample :
    ((handle_poop_vote ⟨[⟨1, 1, 1, "u", 0, none⟩], [], 2⟩ 1 1 "poop_ok").walks.getD 0
        default).poop = some "Normal" ∧
    ((handle_poop_vote (handle_poop_vote ⟨[⟨1, 1, 1, "u", 0, none⟩], [], 2⟩ 1 1 "poop_ok")
        1 1 "poop_soft").walks.getD 0 default).poop = some "Blanda" := by
  constructor <;> simp [handle_poop_vote, mapping, latestWalkId, voteUpdate]

/-- C9 (amended).  Under the operations of the core (reporting a walk,
casting an outcome vote) events are never deleted — the walk list only
grows — and every existing event keeps its id, group, reporter, reporter
name and timestamp; only the `outcome` field can change, and a later vote
may overwrite an outcome set earlier while the event remains the
reporter's most recent one (shown by the counterexample). -/
theorem C9_event_immutability (s : Store) (op : Op) :
    s.walks.length ≤ (applyOp s op).walks.length ∧
    (∀ j, j < s.walks.length →
      ((applyOp s op).walks.getD j default).id = (s.walks.getD j default).id ∧
      ((applyOp s op).walks.getD j default).chat_id = (s.walks.getD j default).chat_id ∧
      ((applyOp s op).walks.getD j default).user_id = (s.walks.getD j default).user_id ∧
      ((applyOp s op).walks.getD j default).user_name
          = (s.walks.getD j default).user_name ∧
      ((applyOp s op).walks.getD j default).ts = (s.walks.getD j default).ts) := by
  cases op with
  | report chat_id user_id user_name title now =>
    constructor
    · simp [applyOp, log_walk]
    · intro j hj
      have hget : (applyOp s (.report chat_id user_id user_name title now)).walks.getD
          j default = s.walks.getD j default := by
        simp only [applyOp, log_walk]
        exact List.getD_append _ _ _ _ hj
      rw [hget]
      exact ⟨rfl, rfl, rfl, rfl, rfl⟩
  | vote chat_id user_id token =>
    cases hm : mapping token with
    | none =>
      have hres : applyOp s (.vote chat_id user_id token) = s := by
        simp [applyOp, handle_poop_vote, hm]
      rw [hres]
      exact ⟨le_refl _, fun j hj => ⟨rfl, rfl, rfl, rfl, rfl⟩⟩
    | some val =>
      cases hl : latestWalkId s.walks chat_id user_id with
      | none =>
        have hres : applyOp s (.vote chat_id user_id token) = s := by
          simp [applyOp, handle_poop_vote, hm, hl]
        rw [hres]
        exact ⟨le_refl _, fun j hj => ⟨rfl, rfl, rfl, rfl, rfl⟩⟩
      | some i =>
        have hres : (applyOp s (.vote chat_id user_id token)).walks
            = s.walks.map (voteUpdate i val) := by
          simp [applyOp, handle_poop_vote, hm, hl]
        constructor
        · rw [hres, List.length_map]
        · intro j hj
          have hj2 : j < (s.walks.map (voteUpdate i val)).length := by
            rw [List.length_map]; exact hj
          have hget : (applyOp s (.vote chat_id user_id token)).walks.getD j default
              = voteUpdate i val (s.walks.getD j default) := by
            rw [hres, List.getD_eq_getElem _ _ hj2, List.getElem_map,
              List.getD_eq_getElem _ _ hj]
          rw [hget]
          unfold voteUpdate
          by_cases hid : (s.walks.getD j default).id == i
          · rw [if_pos hid]
            exact ⟨rfl, rfl, rfl, rfl, rfl⟩
          · rw [if_neg hid]
            exact ⟨rfl, rfl, rfl, rfl, rfl⟩

/-- C9 witness: overwriting the outcome of the single stored event keeps
its timestamp (and, per the theorem, every other non-outcome field). -/
theorem C9_event_immutability_witness :
    ((applyOp ⟨[⟨1, 1, 1, "u", 0, some "Normal"⟩], [], 2⟩
        (.vote 1 1 "poop_soft")).walks.getD 0 default).ts = (0 : ℚ) :=
  ((C9_event_immutability ⟨[⟨1, 1, 1, "u", 0, some "Normal"⟩], [], 2⟩
    (.vote 1 1 "poop_soft")).2 0 (by decide)).2.2.2.2
